import Mathlib

/-!
Verification of the kubernetes micro runtime adapter
(`runtime/kubernetes/kubernetes.go`).

The Go source is shallowly embedded below: pure helpers become Lean
functions, the client-facing verbs become functions from an abstract
client environment to a trace of issued client operations plus a result,
and Go panics (nil dereference, out-of-range indexing, double channel
close) are modelled as `Option.none` results.
-/

namespace MicroK8s

/-- Lower-casing of a string, character by character.  `Char.toLower`
matches the ASCII behaviour of the lower-casing used by the status
switch (all status tokens are basic latin). -/
def strToLower (s : String) : String := ⟨s.data.map Char.toLower⟩

/-- Does the character list `l` start with the list `pre`? -/
def startsWithList : List Char → List Char → Bool
  | [], _ => true
  | _ :: _, [] => false
  | a :: as, b :: bs => a = b && startsWithList as bs

/-- Does `sub` occur somewhere in the character list? -/
def substrAux (sub : List Char) : List Char → Bool
  | [] => startsWithList sub []
  | c :: cs => startsWithList sub (c :: cs) || substrAux sub cs

/-- The `strings.Contains s sub`: substring containment test. -/
def strContainsSub (s sub : String) : Bool := substrAux sub.data s.data

/-- The `runtime.ServiceStatus` lifecycle enumeration
(spec: `\x7bStarting, Running, Stopped, Error, Unknown\x7d`; `Unknown` is the
zero value a freshly allocated service carries before any status is set). -/
inductive ServiceStatus
  | Unknown
  | Starting
  | Running
  | Stopping
  | Stopped
  | Error
deriving DecidableEq

/-- Branches of the `transformStatus` switch (kubernetes.go lines
702-727), on the already lower-cased token. -/
def transformStatusLower (s : String) : ServiceStatus :=
  if s = "pending" then .Starting
  else if s = "containercreating" then .Starting
  else if s = "imagepullbackoff" then .Error
  else if s = "crashloopbackoff" then .Error
  else if s = "error" then .Error
  else if s = "running" then .Running
  else if s = "available" then .Running
  else if s = "succeeded" then .Stopped
  else if s = "failed" then .Error
  else if s = "waiting" then .Starting
  else if s = "terminated" then .Stopped
  else .Unknown

/-- The `transformStatus` (kubernetes.go lines 699-728): switch on the
lower-cased deployment-condition / pod-phase token. -/
def transformStatus (depStatus : String) : ServiceStatus :=
  transformStatusLower (strToLower depStatus)

/-! ### Go string maps

Go `map[string]string` values are embedded as association lists with
unique keys; indexing an absent key yields the zero value `""`, and map
iteration (`for k, v := range m`) walks the list.  Go's nil maps are
represented by the empty list. -/

/-- A Go `map[string]string`. -/
abbrev SMap := List (String × String)

/-- The `m[k]` with the Go zero value for absent keys. -/
def mapGet (m : SMap) (k : String) : String :=
  match m.find? (fun kv => kv.1 == k) with
  | some kv => kv.2
  | none => ""

/-- The `m[k] = v` (overwrite). -/
def mapSet (m : SMap) (k v : String) : SMap :=
  m.filter (fun kv => kv.1 != k) ++ [(k, v)]

/-- The `delete(m, k)`. -/
def mapDel (m : SMap) (k : String) : SMap :=
  m.filter (fun kv => kv.1 != k)

/-- The `for k, v := range src \x7b dst[k] = v \x7d`. -/
def copyInto (dst src : SMap) : SMap :=
  src.foldl (fun d kv => mapSet d kv.1 kv.2) dst

/-! ### Native object views (util/kubernetes/client types, as read by
kubernetes.go) -/

/-- The `client.Metadata`: the fields kubernetes.go reads. -/
structure KMetadata where
  name : String := ""
  labels : SMap := []
  annotations : SMap := []
deriving DecidableEq

/-- One entry of `client.ServiceSpec.Ports`. -/
structure KPort where
  port : Int
deriving DecidableEq

/-- The `client.ServiceSpec`: cluster IP and port list. -/
structure KServiceSpec where
  clusterIP : String := ""
  ports : List KPort := []
deriving DecidableEq

/-- A listed native Service object. -/
structure KService where
  metadata : KMetadata := {}
  spec : KServiceSpec := {}
deriving DecidableEq

/-- One deployment condition (type and last update time). -/
structure KCondition where
  ctype : String
  lastUpdateTime : String := ""
deriving DecidableEq

/-- The `client.DeploymentStatus`. -/
structure KDeploymentStatus where
  conditions : List KCondition := []
deriving DecidableEq

/-- A listed native Deployment object; `template` is
`Spec.Template.Metadata` (read only by Update). -/
structure KDeployment where
  metadata : KMetadata := {}
  status : KDeploymentStatus := {}
  template : KMetadata := {}
deriving DecidableEq

/-- The `Running` container state (start time). -/
structure KRunningState where
  started : String := ""
deriving DecidableEq

/-- A container state: at most one of `running` / `waiting` is set; the
waiting payload is never read by kubernetes.go, only its presence. -/
structure KContainerState where
  running : Option KRunningState := none
  waiting : Option Unit := none
deriving DecidableEq

/-- One entry of `PodStatus.Containers`. -/
structure KContainerStatus where
  state : KContainerState := {}
deriving DecidableEq

/-- The `client.PodStatus`. -/
structure KPodStatus where
  phase : String := ""
  containers : List KContainerStatus := []
deriving DecidableEq

/-- A listed native Pod object. -/
structure KPod where
  metadata : KMetadata := {}
  status : KPodStatus := {}
deriving DecidableEq

/-- The adapter's `service` wrapper around `runtime.Service`: name,
version, source, metadata, derived status, and non-owning back-references
to the native Service and Deployment objects that produced it.
`svc.Status(st, nil)` from the sibling service.go sets the status field
(spec section 4.4 "derive status"); a freshly allocated `runtime.Service`
carries the zero status `Unknown`. -/
structure LogicalService where
  name : String
  version : String
  source : String := ""
  metadata : SMap := []
  status : ServiceStatus := .Unknown
  kservice : Option KService := none
  kdeploy : Option KDeployment := none
deriving DecidableEq

/-! ### getService (kubernetes.go lines 88-245)

The three `client.Get` list calls are abstracted as the three input
lists; the correlation of lines 125-244 is embedded as a pure function.
The `svcMap` Go map becomes a function from join key to entry, and Go
panics (the unguarded `Ports[0]` access) surface as `none`. -/

/-- Join key: the `name` label concatenated with the `version` label. -/
def svcKeyOf (labels : SMap) : String :=
  mapGet labels "name" ++ mapGet labels "version"

/-- Join key of a listed native Service. -/
def kserviceKey (ks : KService) : String := svcKeyOf ks.metadata.labels

/-- Join key of a listed native Deployment. -/
def kdepKey (kd : KDeployment) : String := svcKeyOf kd.metadata.labels

/-- Lines 129-157: the LogicalService built from one listed native
Service; `none` models the out-of-range access `Spec.Ports[0]` on an
empty port list. -/
def mkLogical (ks : KService) : Option LogicalService :=
  match ks.spec.ports with
  | [] => none
  | port :: _ =>
    let md : SMap :=
      mapSet [] "address" (ks.spec.clusterIP ++ ":" ++ toString port.port)
    let md := mapSet md "type" (mapGet ks.metadata.labels "micro")
    let md := copyInto md ks.metadata.annotations
    some { name := mapGet ks.metadata.labels "name"
           version := mapGet ks.metadata.labels "version"
           metadata := md
           kservice := some ks }

/-- The `svcMap` variable: join key to entry. -/
abbrev SvcMap := String → Option LogicalService

/-- A Go map write: last writer wins. -/
def svcInsert (m : SvcMap) (k : String) (v : LogicalService) : SvcMap :=
  fun k' => if k' = k then some v else m k'

/-- One iteration of the service loop (lines 129-158); a `none`
accumulator records that an earlier iteration panicked. -/
def svcStep (om : Option SvcMap) (ks : KService) : Option SvcMap :=
  match om, mkLogical ks with
  | some m, some svc => some (svcInsert m (kserviceKey ks) svc)
  | _, _ => none

/-- The service loop over the whole list. -/
def buildSvcMap (services : List KService) : Option SvcMap :=
  services.foldl svcStep (some (fun _ => none))

/-- Status derived from one pod (lines 210-227): the phase transformed,
forced to `Starting` when the first container reports a waiting state. -/
def podStatusOf (item : KPod) : ServiceStatus :=
  match item.status.containers with
  | [] => transformStatus item.status.phase
  | cont :: _ =>
    if cont.state.waiting.isSome then ServiceStatus.Starting
    else transformStatus item.status.phase

/-- One iteration of the pod loop (lines 200-230) against the current
deployment's `name`/`version` labels.  Pods whose labels do not match, or
with an empty container-status list, leave the entry unchanged. -/
def podStep (name version : String) (svc : LogicalService) (item : KPod) :
    LogicalService :=
  if mapGet item.metadata.labels "name" ≠ name then svc
  else if mapGet item.metadata.labels "version" ≠ version then svc
  else
    match item.status.containers with
    | [] => svc
    | cont :: _ =>
      let svc :=
        match cont.state.running with
        | some r => { svc with metadata := mapSet svc.metadata "started" r.started }
        | none => svc
      { svc with status := podStatusOf item }

/-- Does the deployment carry the adapter's `name` annotation marking it
as adapter-managed (line 170)? -/
def hasNameAnn (kdep : KDeployment) : Bool :=
  (kdep.metadata.annotations.find? (fun kv => kv.1 == "name")).isSome

/-- Lines 161-234: the effect of one listed Deployment on the map entry
at its own join key (absent entries and non-annotated deployments are
left untouched). -/
def depApply (pods : List KPod) (kdep : KDeployment) :
    Option LogicalService → Option LogicalService
  | none => none
  | some svc =>
    if !hasNameAnn kdep then some svc
    else
      let name := mapGet kdep.metadata.labels "name"
      let version := mapGet kdep.metadata.labels "version"
      let svc := { svc with
        name := mapGet kdep.metadata.annotations "name"
        version := mapGet kdep.metadata.annotations "version"
        source := mapGet kdep.metadata.annotations "source" }
      let anns :=
        mapDel (mapDel (mapDel kdep.metadata.annotations "name") "version") "source"
      let svc := { svc with metadata := copyInto svc.metadata anns }
      let svc :=
        match kdep.status.conditions with
        | [] => { svc with status := ServiceStatus.Unknown }
        | c :: _ => { svc with
            status := transformStatus c.ctype
            metadata := mapSet svc.metadata "started" c.lastUpdateTime }
      let svc := pods.foldl (podStep name version) svc
      some { svc with kdeploy := some kdep }

/-- One iteration of the deployment loop: rewrite the entry at the
deployment's own join key. -/
def depStep (pods : List KPod) (m : SvcMap) (kdep : KDeployment) : SvcMap :=
  fun k' => if k' = kdepKey kdep then depApply pods kdep (m k') else m k'

/-- The whole correlation, as the final `svcMap`. -/
def getServiceMap (services : List KService) (deps : List KDeployment)
    (pods : List KPod) : Option SvcMap :=
  (buildSvcMap services).map (fun m => deps.foldl (depStep pods) m)

/-- The join keys present in the final map (Go map writes deduplicate). -/
def svcKeys (services : List KService) : List String :=
  (services.map kserviceKey).dedup

/-- Lines 238-242: collect the map entries.  Go map iteration order is
unspecified; a fixed enumeration of the keys is used here and results are
compared as multisets. -/
def getServiceList (services : List KService) (deps : List KDeployment)
    (pods : List KPod) : Option (List LogicalService) :=
  (getServiceMap services deps pods).map (fun m => (svcKeys services).filterMap m)

/-- The returned collection of LogicalServices, as a multiset. -/
def getServiceSet (services : List KService) (deps : List KDeployment)
    (pods : List KPod) : Option (Multiset LogicalService) :=
  (getServiceList services deps pods).map (fun l => (l : Multiset LogicalService))

/-- Do the pod's labels match the deployment's name/version labels and
does it report at least one container status (lines 202-215)? -/
def podMatches (name version : String) (item : KPod) : Bool :=
  mapGet item.metadata.labels "name" == name &&
  (mapGet item.metadata.labels "version" == version &&
   item.status.containers != [])

/-- The last pod in list order that matches and carries container state:
its derived status is the one that survives the pod loop. -/
def lastMatchingPod (name version : String) : List KPod → Option KPod
  | [] => none
  | p :: rest =>
    match lastMatchingPod name version rest with
    | some q => some q
    | none => if podMatches name version p then some p else none

/-- A native Service used in concrete instances. -/
def ksW : KService :=
  { metadata := { labels := [("name", "a"), ("version", "1")] }
    spec := { clusterIP := "ip", ports := [{ port := 80 }] } }

/-- An adapter-annotated native Deployment whose first condition is
`Running`. -/
def kdW : KDeployment :=
  { metadata :=
      { labels := [("name", "a"), ("version", "1")]
        annotations := [("name", "a"), ("version", "1"), ("source", "src")] }
    status := { conditions := [{ ctype := "Running", lastUpdateTime := "t0" }] } }

/-- A matching pod whose first (and only) container is waiting. -/
def kpW : KPod :=
  { metadata := { labels := [("name", "a"), ("version", "1")] }
    status := { phase := "Running"
                containers := [{ state := { waiting := some () } }] } }

/-! ### Base64 (encoding/base64 StdEncoding, as used by
createCredentials) -/

/-- The standard base64 alphabet. -/
def b64Chars : List Char :=
  "ABCDEFGHIJKLMNOPQRSTUVWXYZabcdefghijklmnopqrstuvwxyz0123456789+/".data

/-- The alphabet character for a 6-bit value. -/
def b64Char (n : Nat) : Char := b64Chars.getD n 'A'

/-- The `base64.StdEncoding.EncodeToString` over a byte list (with `=`
padding). -/
def b64Encode (bytes : List Nat) : List Char :=
  match bytes with
  | [] => []
  | [a] => [b64Char (a / 4), b64Char (a % 4 * 16), '=', '=']
  | [a, b] =>
    [b64Char (a / 4), b64Char (a % 4 * 16 + b / 16), b64Char (b % 16 * 4), '=']
  | a :: b :: c :: rest =>
    b64Char (a / 4) :: b64Char (a % 4 * 16 + b / 16) ::
      b64Char (b % 16 * 4 + c / 64) :: b64Char (c % 64) :: b64Encode rest
termination_by structural bytes

/-- Base64 encoding of a string's UTF-8 bytes (the byte list underlying
`String.toUTF8`). -/
def b64EncodeStr (s : String) : String :=
  ⟨b64Encode ((s.data.flatMap String.utf8EncodeChar).map (fun b => b.toNat))⟩

/-! ### The public verbs

The collaborating cluster API client is abstracted as an environment of
call outcomes; each verb returns the ordered trace of client operations
it issued together with its result.  Go panics are modelled as an outer
`Option.none`. -/

/-- The `runtime.Namespace`. -/
structure RNamespace where
  name : String
deriving DecidableEq

/-- The `runtime.NetworkPolicy`: name, target namespace, allowed labels. -/
structure RNetworkPolicy where
  name : String
  nspace : String
  allowedLabels : List (String × String)
deriving DecidableEq

/-- The `runtime.Service` as handed to the verbs. -/
structure RService where
  name : String
  version : String
  source : String := ""
  metadata : SMap := []
deriving DecidableEq

/-- An abstract resource handed to the public verbs (modelled from the
spec: the runtime package's resource interface, a declared kind tag plus
safe downcasts — `none` is a failed type assertion). -/
structure Resource where
  rtype : String
  asNamespace : Option RNamespace := none
  asNetworkPolicy : Option RNetworkPolicy := none
  asService : Option RService := none
deriving DecidableEq

/-- The `runtime.TypeNamespace` (modelled from the spec: the kind tag). -/
def typeNamespace : String := "namespace"

/-- The `runtime.TypeNetworkPolicy` (modelled from the spec). -/
def typeNetworkPolicy : String := "networkpolicy"

/-- The `runtime.TypeService` (modelled from the spec). -/
def typeService : String := "service"

/-- The `client.Secret` object built by createCredentials. -/
structure Secret where
  stype : String
  data : List (String × String)
  name : String
  nspace : String
deriving DecidableEq

/-- One client call, as recorded in a verb's trace. -/
inductive Op
  | listNamespaces
  | createNamespace (name : String)
  | createNetworkPolicy (name nspace : String) (labels : List (String × String))
  | createSecret (name nspace : String) (secret : Secret)
  | startService (name version nspace : String)
  | deleteSecret (name nspace : String)
  | stopService (name nspace : String)
  | updateDeployment (kdep : KDeployment) (nspace : String)
  | updateNetworkPolicy (name nspace : String)
  | deleteNamespaceOp (name : String)
  | deleteNetworkPolicyOp (name nspace : String)
deriving DecidableEq

/-- Errors surfaced by the public verbs. -/
inductive Err
  | invalidResource
  | notFound
  | client (msg : String)
deriving DecidableEq

/-- Outcome of the workload stop issued by Delete. -/
inductive StopRes
  | ok
  | stopNotFound
  | err (msg : String)
deriving DecidableEq

deriving instance DecidableEq for Except

/-- Outcome of a call into `Create`: either the call returns a result,
or it blocks forever.  `Create` takes the adapter's non-reentrant
exclusive lock at line 339 and holds it for the whole call, so the
`k.Create(networkPolicy, …)` re-entry at line 81 blocks on that same
lock: a deadlock, reached before the policy create is ever issued. -/
inductive COutcome
  | ret (res : Except Err Unit)
  | deadlock
deriving DecidableEq

/-- The `runtime.Options` of the adapter instance (type tag, image, source
defaults). -/
structure AdapterOptions where
  otype : String := "service"
  image : String := ""
  source : String := ""
deriving DecidableEq

/-- The `runtime.CreateOptions` after the caller's option functions were
applied (namespace defaults to the fixed default namespace `"default"`). -/
structure CreateOptions where
  ctype : String := ""
  nspace : String := "default"
  image : String := ""
  secrets : List (String × String) := []
deriving DecidableEq

/-- The collaborating cluster API client and ambient inputs, abstracted:
each field is the outcome of one kind of upstream call, and
`services`/`deployments`/`pods` are the responses to the correlator's Get
calls.  `fmtName` models `client.SerializeResourceName` (modelled from
the spec: "the same name-sanitization rule used for all other resource
names"; defined outside this package).  `nowStr` models the formatted
`time.Now().Unix()` stamp used by Update. -/
structure Env where
  fmtName : String → String
  nsListRes : Except String (List String)
  nsCreateRes : String → Except String Unit
  npCreateRes : String → String → Except String Unit
  npUpdateRes : String → String → Except String Unit
  npDeleteRes : String → String → Except String Unit
  nsDeleteRes : String → Except String Unit
  secretCreateRes : Except String Unit
  serviceStartRes : Except String Unit
  stopRes : StopRes
  services : List KService
  deployments : List KDeployment
  pods : List KPod
  depUpdateRes : KDeployment → Except String Unit
  logsRes : Except String Unit
  nowStr : String

/-- The `namespaceExists` (lines 33-61): populate the cache by one list call
on first use, then a linear membership check on cached names. -/
def namespaceExists (env : Env) (cache : Option (List String)) (name : String) :
    List Op × Option (List String) × Except Err Bool :=
  match cache with
  | none =>
    match env.nsListRes with
    | .error e => ([Op.listNamespaces], none, .error (.client e))
    | .ok items => ([Op.listNamespaces], some items, .ok (items.contains name))
  | some items => ([], some items, .ok (items.contains name))

/-- Modelled from the spec: `createNetworkPolicy` lives in a sibling file
of this package; section 4.5: "NetworkPolicy kind → direct orchestrator
create". -/
def createNetworkPolicy (env : Env) (np : RNetworkPolicy) :
    List Op × Except Err Unit :=
  ([Op.createNetworkPolicy np.name np.nspace np.allowedLabels],
   (env.npCreateRes np.name np.nspace).mapError Err.client)

/-- The tail of `autoCreateNamespace` (lines 74-83) once the create error
has been cleared: append to a populated cache and create the `"ingress"`
network policy carrying the ownership label; an unpopulated cache is left
unpopulated and no policy is created. -/
def autoCreateTail (env : Env) (cache : Option (List String))
    (nspace : String) : List Op × Option (List String) × Except Err Unit :=
  match cache with
  | none => ([], none, .ok ())
  | some items =>
    let np : RNetworkPolicy :=
      { name := "ingress", nspace := nspace
        allowedLabels := [("owner", "micro")] }
    let res := createNetworkPolicy env np
    (res.1, some (items ++ [nspace]), res.2)

/-- The `autoCreateNamespace` body (lines 63-86), as run by a caller that
does NOT hold the adapter's lock.  An "already exists" create error
(matched by substring) is swallowed; the `k.Create(networkPolicy,…)`
re-entry at line 81 then acquires the free lock and resolves to the
NetworkPolicy arm of the Create dispatcher, i.e. `createNetworkPolicy`
(`runtime.NewNetworkPolicy` — modelled from the spec: the
policy-resource constructor, never failing here — yields the
`"ingress"` policy).  The real call site inside `Create`'s Service arm
holds the lock and is modelled by `autoCreateNamespaceLocked` below. -/
def autoCreateNamespace (env : Env) (cache : Option (List String))
    (nspace : String) : List Op × Option (List String) × Except Err Unit :=
  match env.nsCreateRes nspace with
  | .error e =>
    if strContainsSub e "already exists" then
      let t := autoCreateTail env cache nspace
      (Op.createNamespace nspace :: t.1, t.2)
    else ([Op.createNamespace nspace], cache, .error (.client e))
  | .ok _ =>
    let t := autoCreateTail env cache nspace
    (Op.createNamespace nspace :: t.1, t.2)

/-- The tail of `autoCreateNamespace` (lines 74-83) as run with the
adapter's lock held by the enclosing `Create` (line 339): the name is
appended to a populated cache (line 76), `runtime.NewNetworkPolicy`
succeeds, and then the `k.Create(networkPolicy, …)` re-entry at line 81
calls `k.Lock()` on the non-reentrant lock already held — the call
blocks forever, before any policy create reaches the client. -/
def autoCreateTailLocked (_env : Env) (cache : Option (List String))
    (nspace : String) : List Op × Option (List String) × COutcome :=
  match cache with
  | none => ([], none, .ret (.ok ()))
  | some items => ([], some (items ++ [nspace]), .deadlock)

/-- The `autoCreateNamespace` (lines 63-86) as invoked from `Create`'s
Service arm (line 389), i.e. with the adapter's exclusive lock held. -/
def autoCreateNamespaceLocked (env : Env) (cache : Option (List String))
    (nspace : String) : List Op × Option (List String) × COutcome :=
  match env.nsCreateRes nspace with
  | .error e =>
    if strContainsSub e "already exists" then
      let t := autoCreateTailLocked env cache nspace
      (Op.createNamespace nspace :: t.1, t.2)
    else ([Op.createNamespace nspace], cache, .ret (.error (.client e)))
  | .ok _ =>
    let t := autoCreateTailLocked env cache nspace
    (Op.createNamespace nspace :: t.1, t.2)

/-- The `credentialsName` (lines 694-697). -/
def credentialsName (env : Env) (service : RService) : String :=
  env.fmtName (service.name ++ "-" ++ service.version ++ "-credentials")

/-- The `createCredentials` (lines 671-692): one opaque secret whose payload
values are base64-encoded, named deterministically, scoped to the target
namespace. -/
def createCredentials (env : Env) (service : RService)
    (options : CreateOptions) : List Op × Except Err Unit :=
  let data := options.secrets.map (fun kv => (kv.1, b64EncodeStr kv.2))
  let secret : Secret :=
    { stype := "Opaque", data := data
      name := credentialsName env service, nspace := options.nspace }
  ([Op.createSecret (credentialsName env service) options.nspace secret],
   env.secretCreateRes.mapError Err.client)

/-- The `getImage` (lines 659-670). -/
def getImage (kopts : AdapterOptions) (options : CreateOptions) : String :=
  if options.image ≠ "" then options.image
  else if kopts.image ≠ "" then kopts.image
  else ""

/-- The Service arm of Create (lines 366-423), run with the lock taken
at line 339 held: default type and source, ensure the (serialized)
target namespace exists unless it is `"default"` — where the
auto-create path re-enters the locked dispatcher and deadlocks before
the policy create — resolve the image, provision credentials when
secrets were given, then start the workload (`newService`/`Start` —
modelled from the spec: "issue the workload create"). -/
def createService (env : Env) (kopts : AdapterOptions)
    (cache : Option (List String)) (s : RService) (options : CreateOptions) :
    List Op × Option (List String) × COutcome :=
  let options :=
    { options with ctype := if options.ctype = "" then kopts.otype else options.ctype }
  let s := { s with source := if s.source = "" then kopts.source else s.source }
  let nspace := env.fmtName options.nspace
  let nsStep : List Op × Option (List String) × COutcome :=
    if nspace ≠ "default" then
      match namespaceExists env cache nspace with
      | (ops, cache', .ok exist) =>
        if !exist then
          let t := autoCreateNamespaceLocked env cache' nspace
          (ops ++ t.1, t.2)
        else (ops, cache', .ret (.ok ()))
      | (ops, cache', .error e) => (ops, cache', .ret (.error e))
    else ([], cache, .ret (.ok ()))
  match nsStep with
  | (ops, cache', .deadlock) => (ops, cache', .deadlock)
  | (ops, cache', .ret (.error e)) => (ops, cache', .ret (.error e))
  | (ops, cache', .ret (.ok _)) =>
    let options := { options with image := getImage kopts options }
    if options.secrets ≠ [] then
      match createCredentials env s options with
      | (ops2, .error e) => (ops ++ ops2, cache', .ret (.error e))
      | (ops2, .ok _) =>
        (ops ++ ops2 ++ [Op.startService s.name s.version options.nspace],
         cache', .ret (env.serviceStartRes.mapError Err.client))
    else
      (ops ++ [Op.startService s.name s.version options.nspace],
       cache', .ret (env.serviceStartRes.mapError Err.client))

/-- The `Create` (lines 337-427), entered with the lock free and taken
at line 339.  The Namespace arm delegates to the namespace manager
(`createNamespace` lives in a sibling file; modelled from the spec,
section 4.5: "Namespace kind → provision via section 4.2", issuing its
policy create directly against the client). -/
def createDispatch (env : Env) (kopts : AdapterOptions)
    (cache : Option (List String)) (resource : Resource)
    (options : CreateOptions) :
    List Op × Option (List String) × COutcome :=
  if resource.rtype = typeNamespace then
    match resource.asNamespace with
    | none => ([], cache, .ret (.error Err.invalidResource))
    | some ns =>
      let t := autoCreateNamespace env cache ns.name
      (t.1, t.2.1, .ret t.2.2)
  else if resource.rtype = typeNetworkPolicy then
    match resource.asNetworkPolicy with
    | none => ([], cache, .ret (.error Err.invalidResource))
    | some np =>
      let r := createNetworkPolicy env np
      (r.1, cache, .ret r.2)
  else if resource.rtype = typeService then
    match resource.asService with
    | none => ([], cache, .ret (.error Err.invalidResource))
    | some s => createService env kopts cache s options
  else ([], cache, .ret (.error Err.invalidResource))

/-- One iteration of the Update loop (lines 517-537): dereference the
entry's deployment back-reference (`none` models the nil-pointer panic),
merge the incoming metadata into the deployment's annotations, stamp the
template's `updated` annotation with the current time, and push the
deployment.  Go nil maps are modelled as empty lists, so the nil-repair
branch of line 519 is the identity here. -/
def updateOne (env : Env) (nspace : String) (incoming : RService)
    (svc : LogicalService) : Option (List Op × Except Err Unit) :=
  match svc.kdeploy with
  | none => none
  | some kdep =>
    let kdep := { kdep with
      metadata := { kdep.metadata with
        annotations := copyInto kdep.metadata.annotations incoming.metadata } }
    let kdep := { kdep with
      template := { kdep.template with
        annotations := mapSet kdep.template.annotations "updated" env.nowStr } }
    some ([Op.updateDeployment kdep nspace],
      (env.depUpdateRes kdep).mapError Err.client)

/-- The Update loop over all correlated LogicalServices: stops at the
first failing sub-update; a panic anywhere aborts the call. -/
def updateLoop (env : Env) (nspace : String) (incoming : RService) :
    List LogicalService → Option (List Op × Except Err Unit)
  | [] => some ([], .ok ())
  | svc :: rest =>
    match updateOne env nspace incoming svc with
    | none => none
    | some (ops, .error e) => some (ops, .error e)
    | some (ops, .ok _) =>
      match updateLoop env nspace incoming rest with
      | none => none
      | some (ops', res) => some (ops ++ ops', res)

/-- The `Update` (lines 471-543).  The Service arm re-correlates via
getService over the client's list responses (label construction via
`client.Format` is folded into the abstract responses) and pushes each
matched deployment; `updateNetworkPolicy` lives in a sibling file
(modelled from the spec: direct orchestrator update).  A `none` result is
a panic: the unguarded port access in the correlator or the nil
deployment back-reference in the loop. -/
def updateDispatch (env : Env) (resource : Resource) (nspace : String) :
    Option (List Op × Except Err Unit) :=
  if resource.rtype = typeNamespace then some ([], .ok ())
  else if resource.rtype = typeNetworkPolicy then
    match resource.asNetworkPolicy with
    | none => some ([], .error Err.invalidResource)
    | some np =>
      some ([Op.updateNetworkPolicy np.name np.nspace],
        (env.npUpdateRes np.name np.nspace).mapError Err.client)
  else if resource.rtype = typeService then
    match resource.asService with
    | none => some ([], .error Err.invalidResource)
    | some s =>
      match getServiceList env.services env.deployments env.pods with
      | none => none
      | some svcs => updateLoop env nspace s svcs
  else some ([], .error Err.invalidResource)

/-- The `Delete` (lines 545-601): best-effort delete of the credentials
secret (result ignored), then the coordinated workload stop, with
not-found normalized; `deleteNamespace`/`deleteNetworkPolicy` live in a
sibling file (modelled from the spec: direct orchestrator deletes). -/
def deleteDispatch (env : Env) (resource : Resource) (nspace : String) :
    List Op × Except Err Unit :=
  if resource.rtype = typeNamespace then
    match resource.asNamespace with
    | none => ([], .error Err.invalidResource)
    | some ns =>
      ([Op.deleteNamespaceOp ns.name], (env.nsDeleteRes ns.name).mapError Err.client)
  else if resource.rtype = typeNetworkPolicy then
    match resource.asNetworkPolicy with
    | none => ([], .error Err.invalidResource)
    | some np =>
      ([Op.deleteNetworkPolicyOp np.name np.nspace],
       (env.npDeleteRes np.name np.nspace).mapError Err.client)
  else if resource.rtype = typeService then
    match resource.asService with
    | none => ([], .error Err.invalidResource)
    | some s =>
      let ops := [Op.deleteSecret (credentialsName env s) nspace,
                  Op.stopService s.name nspace]
      match env.stopRes with
      | .ok => (ops, .ok ())
      | .stopNotFound => (ops, .error Err.notFound)
      | .err e => (ops, .error (.client e))
  else ([], .error Err.invalidResource)

/-- The channel state of a `kubeStream`: whether the stop and stream
channels have been closed. -/
structure KubeStream where
  stopClosed : Bool
  streamClosed : Bool
deriving DecidableEq

/-- The `Logs` (lines 259-305): Namespace and NetworkPolicy kinds return no
stream and no error; the Service kind builds a log accessor
(`newLog`/`Read`/`Stream` in a sibling file — modelled from the spec,
section 4.6: fetch or tail, surfacing the accessor's error) and yields a
stream whose channels start open. -/
def logsDispatch (env : Env) (resource : Resource) :
    Except Err (Option KubeStream) :=
  if resource.rtype = typeNamespace then .ok none
  else if resource.rtype = typeNetworkPolicy then .ok none
  else if resource.rtype = typeService then
    match resource.asService with
    | none => .error Err.invalidResource
    | some _ =>
      match env.logsRes with
      | .error e => .error (.client e)
      | .ok _ => .ok (some { stopClosed := false, streamClosed := false })
  else .error Err.invalidResource

/-- The `kubeStream.Stop` (lines 324-335): receiving on the closed stop
channel returns nil immediately; otherwise both channels are closed —
closing an already-closed Go channel panics (`none`).  The boolean
reports whether this call performed the closes. -/
def kubeStreamStop (k : KubeStream) :
    Option (KubeStream × Bool × Except Err Unit) :=
  if k.stopClosed then some (k, false, .ok ())
  else if k.streamClosed then none
  else some ({ stopClosed := true, streamClosed := true }, true, .ok ())

/-- The `n` sequential Stop calls, counting how many of them closed the
channels. -/
def kubeStreamStops : Nat → KubeStream → Option (KubeStream × Nat)
  | 0, k => some (k, 0)
  | n + 1, k =>
    match kubeStreamStop k with
    | none => none
    | some (k', closedNow, _) =>
      match kubeStreamStops n k' with
      | none => none
      | some (k'', c) => some (k'', (if closedNow then 1 else 0) + c)

/-- A service used in concrete instances. -/
def sW : RService := { name := "api", version := "v1" }

/-- A benign concrete environment for witnesses. -/
def envW : Env :=
  { fmtName := id
    nsListRes := .ok []
    nsCreateRes := fun _ => .ok ()
    npCreateRes := fun _ _ => .ok ()
    npUpdateRes := fun _ _ => .ok ()
    npDeleteRes := fun _ _ => .ok ()
    nsDeleteRes := fun _ => .ok ()
    secretCreateRes := .ok ()
    serviceStartRes := .ok ()
    stopRes := .ok
    services := []
    deployments := []
    pods := []
    depUpdateRes := fun _ => .ok ()
    logsRes := .ok ()
    nowStr := "0" }

/-- A Service-kind resource wrapping `sW`. -/
def resC2 : Resource := { rtype := typeService, asService := some sW }

/-- An environment whose upstream namespace list is `["default"]`. -/
def envC2 : Env := { envW with nsListRes := .ok ["default"] }

/-- Create options targeting namespace `ns1` with one secret. -/
def optsC2 : CreateOptions := { nspace := "ns1", secrets := [("pass", "hello")] }

/-- A Namespace-kind resource value that fails the downcast. -/
def resBadNs : Resource := { rtype := typeNamespace }

/-- A resource of an unrecognized kind. -/
def resOther : Resource := { rtype := "pod" }

/-- A deployment matching `ksW`'s join key but lacking the adapter's
`name` annotation (not adapter-managed). -/
def kdNoAnnW : KDeployment :=
  { metadata := { labels := [("name", "a"), ("version", "1")] } }

/-- An environment whose correlator inputs are `ksW` and `kdNoAnnW`. -/
def envC9 : Env := { envW with services := [ksW], deployments := [kdNoAnnW] }

/-- A matching pod whose container is running and whose phase is
`running`. -/
def kpRun : KPod :=
  { metadata := { labels := [("name", "a"), ("version", "1")] }
    status := { phase := "running"
                containers := [{ state := { running := some { started := "s1" } } }] } }

/-- A matching pod with container state and phase `failed`. -/
def kpFail : KPod :=
  { metadata := { labels := [("name", "a"), ("version", "1")] }
    status := { phase := "failed", containers := [{}] } }

/-- A second native Service with join key `b1`. -/
def ksB : KService :=
  { metadata := { labels := [("name", "b"), ("version", "1")] }
    spec := { clusterIP := "ip2", ports := [{ port := 81 }] } }

/-- The comparison projection of the order-independence property. -/
def svcProj (svc : LogicalService) : String × String × ServiceStatus :=
  (svc.name, svc.version, svc.status)

end MicroK8s

namespace MicroK8s

/-- C3: `transformStatus` is a total, case-insensitive function: lowercased
inputs `pending`, `containercreating`, `waiting` map to `Starting`;
`running`, `available` to `Running`; `succeeded`, `terminated` to
`Stopped`; `imagepullbackoff`, `crashloopbackoff`, `error`, `failed` to
`Error`; every other string to `Unknown`; and two strings with the same
lower-casing always transform alike. -/
theorem transformStatus_total_case_insensitive (s t : String) :
    ((strToLower s = "pending" ∨ strToLower s = "containercreating" ∨
        strToLower s = "waiting") → transformStatus s = ServiceStatus.Starting) ∧
    ((strToLower s = "running" ∨ strToLower s = "available") →
        transformStatus s = ServiceStatus.Running) ∧
    ((strToLower s = "succeeded" ∨ strToLower s = "terminated") →
        transformStatus s = ServiceStatus.Stopped) ∧
    ((strToLower s = "imagepullbackoff" ∨ strToLower s = "crashloopbackoff" ∨
        strToLower s = "error" ∨ strToLower s = "failed") →
        transformStatus s = ServiceStatus.Error) ∧
    (strToLower s ∉ ["pending", "containercreating", "imagepullbackoff",
        "crashloopbackoff", "error", "running", "available", "succeeded",
        "failed", "waiting", "terminated"] →
        transformStatus s = ServiceStatus.Unknown) ∧
    (strToLower s = strToLower t → transformStatus s = transformStatus t) := by
  refine ⟨?_, ?_, ?_, ?_, ?_, ?_⟩
  · rintro (h | h | h) <;>
      · show transformStatusLower (strToLower s) = _
        rw [h]
        decide
  · rintro (h | h) <;>
      · show transformStatusLower (strToLower s) = _
        rw [h]
        decide
  · rintro (h | h) <;>
      · show transformStatusLower (strToLower s) = _
        rw [h]
        decide
  · rintro (h | h | h | h) <;>
      · show transformStatusLower (strToLower s) = _
        rw [h]
        decide
  · intro h
    simp only [List.mem_cons, List.not_mem_nil, not_or, or_false] at h
    obtain ⟨h1, h2, h3, h4, h5, h6, h7, h8, h9, h10, h11⟩ := h
    show transformStatusLower (strToLower s) = _
    unfold transformStatusLower
    rw [if_neg h1, if_neg h2, if_neg h3, if_neg h4, if_neg h5, if_neg h6,
      if_neg h7, if_neg h8, if_neg h9, if_neg h10, if_neg h11]
  · intro hcase
    show transformStatusLower (strToLower s) = transformStatusLower (strToLower t)
    rw [hcase]

theorem mkLogical_eq_none_iff (ks : KService) :
    mkLogical ks = none ↔ ks.spec.ports = [] := by
  rcases hp : ks.spec.ports with _ | ⟨p, ps⟩ <;> simp [mkLogical, hp]

theorem foldl_svcStep_none (l : List KService) : l.foldl svcStep none = none := by
  induction l with
  | nil => rfl
  | cons a l ih =>
    have h : svcStep none a = none := by
      unfold svcStep
      cases h : mkLogical a <;> rfl
    rw [List.foldl_cons, h]
    exact ih

theorem foldl_svcStep_eq_none_iff (l : List KService) :
    ∀ m : SvcMap, l.foldl svcStep (some m) = none ↔
      ∃ ks ∈ l, ks.spec.ports = [] := by
  induction l with
  | nil => intro m; simp
  | cons a l ih =>
    intro m
    rw [List.foldl_cons]
    cases ha : mkLogical a with
    | none =>
      have hs : svcStep (some m) a = none := by unfold svcStep; rw [ha]
      rw [hs, foldl_svcStep_none]
      simp only [iff_true_intro rfl, true_iff]
      exact ⟨a, List.mem_cons_self a l, (mkLogical_eq_none_iff a).mp ha⟩
    | some svc =>
      have hs : svcStep (some m) a = some (svcInsert m (kserviceKey a) svc) := by
        unfold svcStep; rw [ha]
      rw [hs, ih]
      constructor
      · rintro ⟨ks, hks, hp⟩
        exact ⟨ks, List.Mem.tail _ hks, hp⟩
      · rintro ⟨ks, hks, hp⟩
        rcases List.mem_cons.mp hks with heq | hks
        · subst heq
          rw [(mkLogical_eq_none_iff ks).mpr hp] at ha
          cases ha
        · exact ⟨ks, hks, hp⟩

/-- C10: the correlation reads `Spec.Ports[0]` of every listed native
Service without a non-emptiness guard (unlike the guarded accesses to
deployment conditions and pod container statuses): it fails with an
out-of-range access exactly when some listed Service declares no ports,
and is total whenever every listed Service declares at least one port —
independently of the deployment and pod lists. -/
theorem getService_ports_unguarded (services : List KService)
    (deps : List KDeployment) (pods : List KPod) :
    getServiceList services deps pods = none ↔
      ∃ ks ∈ services, ks.spec.ports = [] := by
  unfold getServiceList getServiceMap buildSvcMap
  rw [Option.map_eq_none', Option.map_eq_none']
  exact foldl_svcStep_eq_none_iff services _

/-- Concrete instance of C10: a single listed Service with an empty port
list makes the correlation fail. -/
theorem getService_ports_unguarded_witness :
    getServiceList [({} : KService)] [] [] = none :=
  (getService_ports_unguarded [({} : KService)] [] []).mpr
    ⟨({} : KService), List.mem_singleton.mpr rfl, rfl⟩

theorem podStep_of_not_matching (n v : String) (svc : LogicalService)
    (item : KPod) (h : podMatches n v item = false) :
    podStep n v svc item = svc := by
  unfold podMatches at h
  by_cases h1 : mapGet item.metadata.labels "name" = n
  · by_cases h2 : mapGet item.metadata.labels "version" = v
    · rcases hc : item.status.containers with _ | ⟨c, cs⟩
      · simp [podStep, h1, h2, hc]
      · rw [h1, h2, hc] at h
        simp at h
    · simp [podStep, h2]
  · simp [podStep, h1]

theorem podStep_status_of_matching (n v : String) (svc : LogicalService)
    (item : KPod) (h : podMatches n v item = true) :
    (podStep n v svc item).status = podStatusOf item := by
  unfold podMatches at h
  simp only [Bool.and_eq_true, beq_iff_eq, bne_iff_ne, ne_eq] at h
  obtain ⟨h1, h2, h3⟩ := h
  rcases hc : item.status.containers with _ | ⟨c, cs⟩
  · exact absurd hc h3
  · simp only [podStep, h1, h2, hc, ne_eq, not_true_eq_false, if_false]

theorem foldl_podStep_status (n v : String) (pods : List KPod) :
    ∀ svc : LogicalService,
      (pods.foldl (podStep n v) svc).status =
        match lastMatchingPod n v pods with
        | some p => podStatusOf p
        | none => svc.status := by
  induction pods with
  | nil => intro svc; rfl
  | cons p rest ih =>
    intro svc
    rw [List.foldl_cons, ih]
    cases hq : lastMatchingPod n v rest with
    | some q => simp only [lastMatchingPod, hq]
    | none =>
      cases hm : podMatches n v p with
      | true =>
        simp [lastMatchingPod, hq, hm]
        exact podStep_status_of_matching n v svc p hm
      | false =>
        simp [lastMatchingPod, hq, hm]
        rw [podStep_of_not_matching n v svc p hm]

theorem foldl_depStep_apply (pods : List KPod) (deps : List KDeployment) :
    ∀ (m : SvcMap) (k : String),
      deps.foldl (depStep pods) m k =
        (deps.filter (fun d => kdepKey d == k)).foldl
          (fun ov d => depApply pods d ov) (m k) := by
  induction deps with
  | nil => intro m k; rfl
  | cons d deps ih =>
    intro m k
    rw [List.foldl_cons, List.filter_cons]
    by_cases h : kdepKey d = k
    · rw [if_pos (by simp [h]), List.foldl_cons, ih]
      congr 1
      show depStep pods m d k = depApply pods d (m k)
      unfold depStep
      rw [if_pos h.symm]
    · rw [if_neg (by simp [h]), ih]
      congr 1
      show depStep pods m d k = m k
      unfold depStep
      rw [if_neg (fun hk => h hk.symm)]

theorem depApply_of_no_ann (pods : List KPod) (d : KDeployment)
    (h : hasNameAnn d = false) (ov : Option LogicalService) :
    depApply pods d ov = ov := by
  cases ov with
  | none => rfl
  | some svc => simp [depApply, h]

/-- The status of the entry after one annotated deployment is processed:
the last matching pod's derived status when such a pod exists, otherwise
the deployment-condition status (first condition transformed, `Unknown`
when the condition list is empty). -/
theorem depApply_status (pods : List KPod) (d : KDeployment)
    (svc : LogicalService) (hann : hasNameAnn d = true) :
    ∃ svc', depApply pods d (some svc) = some svc' ∧
      svc'.kdeploy = some d ∧
      svc'.status =
        (match lastMatchingPod (mapGet d.metadata.labels "name")
            (mapGet d.metadata.labels "version") pods with
         | some p => podStatusOf p
         | none =>
           match d.status.conditions with
           | [] => ServiceStatus.Unknown
           | c :: _ => transformStatus c.ctype) := by
  simp only [depApply, hann, Bool.not_true, Bool.false_eq_true, if_false]
  refine ⟨_, rfl, rfl, ?_⟩
  show (pods.foldl (podStep (mapGet d.metadata.labels "name")
      (mapGet d.metadata.labels "version")) _).status = _
  rw [foldl_podStep_status]
  cases hq : lastMatchingPod (mapGet d.metadata.labels "name")
      (mapGet d.metadata.labels "version") pods with
  | some p => rfl
  | none =>
    cases hc : d.status.conditions with
    | nil => simp [hc]
    | cons c cs => simp [hc]

/-- C1: whenever the map entry at join key `k` was produced by a listed
native Service and is reworked by the one adapter-annotated Deployment
with that key, and at least one pod matches the deployment's
name/version labels with a non-empty container-status list, the entry's
final status is the pod-derived status of the last such pod — its phase
transformed, forced to `Starting` when the first container reports a
waiting state — superseding any status derived from the deployment's
conditions. -/
theorem getService_pod_status_supersedes
    (services : List KService) (deps : List KDeployment) (pods : List KPod)
    (m0 : SvcMap) (svc0 : LogicalService) (k : String) (d : KDeployment)
    (p : KPod)
    (hbuild : buildSvcMap services = some m0)
    (hentry : m0 k = some svc0)
    (hdeps : deps.filter (fun d' => kdepKey d' == k) = [d])
    (hann : hasNameAnn d = true)
    (hpod : lastMatchingPod (mapGet d.metadata.labels "name")
        (mapGet d.metadata.labels "version") pods = some p) :
    ∃ m svc, getServiceMap services deps pods = some m ∧
      m k = some svc ∧ svc.status = podStatusOf p ∧
      (∀ c cs, p.status.containers = c :: cs →
        c.state.waiting.isSome = true → svc.status = ServiceStatus.Starting) := by
  have hmap : getServiceMap services deps pods =
      some (deps.foldl (depStep pods) m0) := by
    unfold getServiceMap
    rw [hbuild]
    rfl
  obtain ⟨svc', h1, hkd, h3⟩ := depApply_status pods d svc0 hann
  have hstat : svc'.status = podStatusOf p := by
    rw [h3, hpod]
  refine ⟨deps.foldl (depStep pods) m0, svc', hmap, ?_, hstat, ?_⟩
  · rw [foldl_depStep_apply, hdeps, List.foldl_cons, List.foldl_nil, hentry, h1]
  · intro c cs hc hw
    rw [hstat]
    unfold podStatusOf
    rw [hc]
    simp [hw]

/-- Concrete instance of C1: deployment condition `Running` plus a
matching pod whose first container is waiting yields final status
`Starting`. -/
theorem getService_pod_status_supersedes_witness :
    ∃ m svc, getServiceMap [ksW] [kdW] [kpW] = some m ∧
      m "a1" = some svc ∧ svc.status = podStatusOf kpW ∧
      svc.status = ServiceStatus.Starting := by
  obtain ⟨m, svc, h1, h2, h3, h4⟩ :=
    getService_pod_status_supersedes [ksW] [kdW] [kpW] _ _ "a1" kdW kpW
      rfl rfl rfl rfl rfl
  exact ⟨m, svc, h1, h2, h3, h4 _ _ rfl rfl⟩

theorem kubeStreamStops_closed (n : Nat) :
    kubeStreamStops n { stopClosed := true, streamClosed := true } =
      some ({ stopClosed := true, streamClosed := true }, 0) := by
  induction n with
  | zero => rfl
  | succ n ih => simp [kubeStreamStops, kubeStreamStop, ih]

/-- C8: Stop is idempotent: every non-panicking Stop returns nil, and on
a freshly made stream any number of sequential Stop calls never panics,
closes the channels exactly once in total (zero times when no call is
made), and both channels are closed after the first call. -/
theorem kubeStream_stop_idempotent :
    (∀ k k' b r, kubeStreamStop k = some (k', b, r) → r = .ok ()) ∧
    (∀ n : Nat,
      kubeStreamStops n { stopClosed := false, streamClosed := false } =
        some ((if n = 0 then { stopClosed := false, streamClosed := false }
               else { stopClosed := true, streamClosed := true }),
              min n 1)) := by
  constructor
  · intro k k' b r h
    unfold kubeStreamStop at h
    split_ifs at h <;> cases h <;> rfl
  · intro n
    cases n with
    | zero => rfl
    | succ n =>
      simp [kubeStreamStops, kubeStreamStop, kubeStreamStops_closed]

/-- Concrete instance of C8: two sequential Stops on a fresh stream close
the channels exactly once and end with both channels closed. -/
theorem kubeStream_stop_idempotent_witness :
    kubeStreamStops 2 { stopClosed := false, streamClosed := false } =
      some ({ stopClosed := true, streamClosed := true }, 1) := by
  have h := kubeStream_stop_idempotent.2 2
  simpa using h

/-- C5: an "already exists" failure of the namespace create call is
swallowed: autoCreateNamespace behaves exactly as if the create call had
succeeded, so re-creating an existing namespace never returns an error
from the namespace-create step. -/
theorem autoCreateNamespace_idempotent (env : Env)
    (cache : Option (List String)) (nspace e : String)
    (herr : env.nsCreateRes nspace = .error e)
    (hsub : strContainsSub e "already exists" = true) :
    autoCreateNamespace env cache nspace =
      autoCreateNamespace
        { env with
          nsCreateRes := fun n => if n = nspace then .ok () else env.nsCreateRes n }
        cache nspace := by
  cases cache with
  | none =>
    unfold autoCreateNamespace autoCreateTail
    simp [herr, hsub]
  | some items =>
    unfold autoCreateNamespace autoCreateTail createNetworkPolicy
    simp [herr, hsub]

/-- Concrete instance of C5: with an upstream reporting
"namespace already exists", a second auto-create returns exactly the
success-path result. -/
theorem autoCreateNamespace_idempotent_witness :
    autoCreateNamespace
        { envW with nsCreateRes := fun _ => .error "namespace already exists" }
        (some []) "ns1" =
      autoCreateNamespace
        { { envW with nsCreateRes := fun _ => .error "namespace already exists" } with
          nsCreateRes := fun n => if n = "ns1" then .ok ()
            else ({ envW with
              nsCreateRes := fun _ => .error "namespace already exists" }).nsCreateRes n }
        (some []) "ns1" :=
  autoCreateNamespace_idempotent _ (some []) "ns1" "namespace already exists"
    rfl (by decide)

/-- C7: createCredentials creates exactly one secret: of type Opaque,
named by the shared sanitization of `<name>-<version>-credentials`,
scoped to the target namespace, with every payload value base64-encoded;
the result is the create call's outcome (no retry). -/
theorem createCredentials_one_secret (env : Env) (service : RService)
    (options : CreateOptions) (_hne : options.secrets ≠ []) :
    ∃ sec : Secret,
      (createCredentials env service options).1 =
        [Op.createSecret (credentialsName env service) options.nspace sec] ∧
      sec.stype = "Opaque" ∧
      sec.name = credentialsName env service ∧
      sec.nspace = options.nspace ∧
      sec.data = options.secrets.map (fun kv => (kv.1, b64EncodeStr kv.2)) ∧
      credentialsName env service =
        env.fmtName (service.name ++ "-" ++ service.version ++ "-credentials") ∧
      (createCredentials env service options).2 =
        env.secretCreateRes.mapError Err.client :=
  ⟨_, rfl, rfl, rfl, rfl, rfl, rfl, rfl⟩

/-- Concrete instance of C7: service `api`/`v1` with one secret yields
one secret object named `api-v1-credentials` with base64-encoded
payload. -/
theorem createCredentials_one_secret_witness :
    ∃ sec : Secret,
      (createCredentials envW sW { secrets := [("pass", "hello")] }).1 =
        [Op.createSecret "api-v1-credentials" "default" sec] ∧
      sec.data = [("pass", "aGVsbG8=")] := by
  obtain ⟨sec, h1, h2, h3, h4, h5, h6, h7⟩ :=
    createCredentials_one_secret envW sW { secrets := [("pass", "hello")] }
      (by decide)
  refine ⟨sec, ?_, ?_⟩
  · rw [h1]
    have hn : credentialsName envW sW = "api-v1-credentials" := by decide
    rw [hn]
  · rw [h5]
    decide

theorem createDispatch_service (env : Env) (kopts : AdapterOptions)
    (cache : Option (List String)) (resource : Resource)
    (options : CreateOptions) (s : RService)
    (hr : resource.rtype = typeService) (hs : resource.asService = some s) :
    createDispatch env kopts cache resource options =
      createService env kopts cache s options := by
  unfold createDispatch
  rw [hr, hs]
  simp [typeService, typeNamespace, typeNetworkPolicy]

/-- C2: the claimed provisioning order is the code's evident intent,
but the code cannot produce it: Create holds the non-reentrant adapter
lock (line 339) while autoCreateNamespace re-enters k.Create at line 81,
so a Create of a Service-kind resource whose serialized target namespace
is not "default" and is not among the namespaces listed upstream issues
only the namespace list and namespace create calls and then deadlocks —
the ingress network policy create and the workload create are never
issued, and Create never returns. -/
theorem create_deadlocks_on_namespace_provision
    (env : Env) (kopts : AdapterOptions) (resource : Resource)
    (options : CreateOptions) (s : RService) (items : List String)
    (hr : resource.rtype = typeService)
    (hs : resource.asService = some s)
    (hlist : env.nsListRes = .ok items)
    (hnot : items.contains (env.fmtName options.nspace) = false)
    (hns : env.fmtName options.nspace ≠ "default")
    (hok : env.nsCreateRes (env.fmtName options.nspace) = .ok ()) :
    createDispatch env kopts none resource options =
      ([Op.listNamespaces, Op.createNamespace (env.fmtName options.nspace)],
       some (items ++ [env.fmtName options.nspace]), .deadlock) ∧
    (∀ nm ns' ls, Op.createNetworkPolicy nm ns' ls ∉
      (createDispatch env kopts none resource options).1) ∧
    (∀ n v ns', Op.startService n v ns' ∉
      (createDispatch env kopts none resource options).1) := by
  rw [createDispatch_service env kopts none resource options s hr hs]
  have hmem : env.fmtName options.nspace ∉ items := by
    simpa using hnot
  refine ⟨?_, ?_, ?_⟩
  · unfold createService namespaceExists autoCreateNamespaceLocked
      autoCreateTailLocked
    simp [hlist, hmem, hok, hns]
  · intro nm ns' ls
    unfold createService namespaceExists autoCreateNamespaceLocked
      autoCreateTailLocked
    simp [hlist, hmem, hok, hns]
  · intro n v ns'
    unfold createService namespaceExists autoCreateNamespaceLocked
      autoCreateTailLocked
    simp [hlist, hmem, hok, hns]

/-- Concrete instance of C2's code bug: creating `api/v1` into the
missing namespace `ns1` issues the namespace list and the namespace
create and then deadlocks; no policy create and no workload create
appear in the trace. -/
theorem create_deadlocks_on_namespace_provision_witness :
    createDispatch envC2 {} none resC2 optsC2 =
      ([Op.listNamespaces, Op.createNamespace "ns1"],
       some ["default", "ns1"], .deadlock) := by
  have h := (create_deadlocks_on_namespace_provision envC2 {} resC2 optsC2 sW
      ["default"] rfl rfl rfl (by decide) (by decide) rfl).1
  rw [h]
  rfl

/-- C6 (amended): every verb rejects an unrecognized kind with
`ErrInvalidResource`, and a failed downcast yields `ErrInvalidResource`
in every verb that attempts one — Create and Delete for all three kinds,
Update for the NetworkPolicy and Service kinds, Logs for the Service
kind; Update on a Namespace-kind value is a nil no-op and Logs on
Namespace/NetworkPolicy-kind values return no stream and no error,
regardless of the downcast. -/
theorem dispatch_invalid_resource (env : Env) (kopts : AdapterOptions)
    (cache : Option (List String)) (options : CreateOptions)
    (nspace : String) (r : Resource) :
    (r.rtype ≠ typeNamespace → r.rtype ≠ typeNetworkPolicy →
      r.rtype ≠ typeService →
      (createDispatch env kopts cache r options).2.2 =
        COutcome.ret (.error Err.invalidResource) ∧
      updateDispatch env r nspace = some ([], .error Err.invalidResource) ∧
      (deleteDispatch env r nspace).2 = .error Err.invalidResource ∧
      logsDispatch env r = .error Err.invalidResource) ∧
    (r.rtype = typeNamespace → r.asNamespace = none →
      (createDispatch env kopts cache r options).2.2 =
        COutcome.ret (.error Err.invalidResource) ∧
      (deleteDispatch env r nspace).2 = .error Err.invalidResource ∧
      updateDispatch env r nspace = some ([], .ok ()) ∧
      logsDispatch env r = .ok none) ∧
    (r.rtype = typeNetworkPolicy → r.asNetworkPolicy = none →
      (createDispatch env kopts cache r options).2.2 =
        COutcome.ret (.error Err.invalidResource) ∧
      (deleteDispatch env r nspace).2 = .error Err.invalidResource ∧
      updateDispatch env r nspace = some ([], .error Err.invalidResource) ∧
      logsDispatch env r = .ok none) ∧
    (r.rtype = typeService → r.asService = none →
      (createDispatch env kopts cache r options).2.2 =
        COutcome.ret (.error Err.invalidResource) ∧
      (deleteDispatch env r nspace).2 = .error Err.invalidResource ∧
      updateDispatch env r nspace = some ([], .error Err.invalidResource) ∧
      logsDispatch env r = .error Err.invalidResource) := by
  refine ⟨?_, ?_, ?_, ?_⟩
  · intro h1 h2 h3
    refine ⟨?_, ?_, ?_, ?_⟩ <;>
      simp [createDispatch, updateDispatch, deleteDispatch, logsDispatch,
        h1, h2, h3]
  · intro h1 h2
    refine ⟨?_, ?_, ?_, ?_⟩ <;>
      simp [createDispatch, updateDispatch, deleteDispatch, logsDispatch,
        h1, h2, typeNamespace, typeNetworkPolicy, typeService]
  · intro h1 h2
    refine ⟨?_, ?_, ?_, ?_⟩ <;>
      simp [createDispatch, updateDispatch, deleteDispatch, logsDispatch,
        h1, h2, typeNamespace, typeNetworkPolicy, typeService]
  · intro h1 h2
    refine ⟨?_, ?_, ?_, ?_⟩ <;>
      simp [createDispatch, updateDispatch, deleteDispatch, logsDispatch,
        h1, h2, typeNamespace, typeNetworkPolicy, typeService]

/-- Counterexample to C6 as stated: Update of a Namespace-kind value
that fails the downcast returns nil (a no-op), not ErrInvalidResource. -/
theorem dispatch_invalid_resource_cex :
    updateDispatch envW resBadNs "default" = some ([], .ok ()) ∧
    (some ([], .ok ()) : Option (List Op × Except Err Unit)) ≠
      some ([], .error Err.invalidResource) :=
  ⟨rfl, fun h => by simp at h⟩

/-- Concrete instance of C6 (amended): a resource of kind `pod` is
rejected by all four verbs. -/
theorem dispatch_invalid_resource_witness :
    (createDispatch envW {} none resOther {}).2.2 =
      COutcome.ret (.error Err.invalidResource) ∧
    updateDispatch envW resOther "default" = some ([], .error Err.invalidResource) ∧
    (deleteDispatch envW resOther "default").2 = .error Err.invalidResource ∧
    logsDispatch envW resOther = .error Err.invalidResource :=
  (dispatch_invalid_resource envW {} none {} "default" resOther).1
    (by decide) (by decide) (by decide)

theorem mkLogical_kdeploy (ks : KService) (svc : LogicalService)
    (h : mkLogical ks = some svc) : svc.kdeploy = none := by
  unfold mkLogical at h
  rcases hp : ks.spec.ports with _ | ⟨p, ps⟩ <;> rw [hp] at h
  · cases h
  · cases h
    rfl

theorem foldl_svcStep_kdeploy (l : List KService) :
    ∀ om : Option SvcMap,
      (∀ m, om = some m → ∀ k svc, m k = some svc → svc.kdeploy = none) →
      ∀ m0, l.foldl svcStep om = some m0 →
      ∀ k svc, m0 k = some svc → svc.kdeploy = none := by
  induction l with
  | nil =>
    intro om hinv m0 h
    exact hinv m0 h
  | cons a l ih =>
    intro om hinv m0 h
    rw [List.foldl_cons] at h
    refine ih (svcStep om a) ?_ m0 h
    intro m hm k svc hk
    cases om with
    | none =>
      have hn : svcStep none a = none := by
        unfold svcStep
        cases mkLogical a <;> rfl
      rw [hn] at hm
      cases hm
    | some m' =>
      cases ha : mkLogical a with
      | none =>
        unfold svcStep at hm
        rw [ha] at hm
        cases hm
      | some svc' =>
        unfold svcStep at hm
        rw [ha] at hm
        cases hm
        unfold svcInsert at hk
        by_cases hkk : k = kserviceKey a
        · rw [if_pos hkk] at hk
          cases hk
          exact mkLogical_kdeploy a _ ha
        · rw [if_neg hkk] at hk
          exact hinv m' rfl k svc hk

theorem buildSvcMap_kdeploy (services : List KService) (m0 : SvcMap)
    (h : buildSvcMap services = some m0) (k : String) (svc : LogicalService)
    (hk : m0 k = some svc) : svc.kdeploy = none := by
  refine foldl_svcStep_kdeploy services _ ?_ m0 h k svc hk
  intro m hm k' svc' hk'
  cases hm
  simp at hk'

theorem foldl_depApply_id (pods : List KPod) (l : List KDeployment)
    (h : ∀ d ∈ l, hasNameAnn d = false) :
    ∀ ov, l.foldl (fun ov d => depApply pods d ov) ov = ov := by
  induction l with
  | nil => intro ov; rfl
  | cons d l ih =>
    intro ov
    rw [List.foldl_cons,
      depApply_of_no_ann pods d (h d (List.mem_cons_self d l)) ov]
    exact ih (fun d' hd' => h d' (List.Mem.tail _ hd')) ov

/-- C9: a LogicalService built from a listed native Service whose join
key matches no adapter-annotated deployment keeps a nil deployment
back-reference, and the Update loop dereferences that back-reference
unconditionally: with an all-ok client, the loop panics (nil-pointer
dereference) exactly when some correlated LogicalService has a nil
back-reference — Update is total only when every correlated
LogicalService has a matching annotated deployment. -/
theorem update_nil_kdeploy_panics
    (env : Env) (nspace : String) (incoming : RService)
    (m0 : SvcMap) (svc0 : LogicalService) (k : String)
    (hbuild : buildSvcMap env.services = some m0)
    (hentry : m0 k = some svc0)
    (hnoann : ∀ d ∈ env.deployments, kdepKey d = k → hasNameAnn d = false) :
    (∃ m, getServiceMap env.services env.deployments env.pods = some m ∧
       m k = some svc0 ∧ svc0.kdeploy = none) ∧
    (∀ svcs : List LogicalService, (∀ d, env.depUpdateRes d = .ok ()) →
      (updateLoop env nspace incoming svcs = none ↔
        ∃ svc ∈ svcs, svc.kdeploy = none)) := by
  constructor
  · have hmap : getServiceMap env.services env.deployments env.pods =
        some (env.deployments.foldl (depStep env.pods) m0) := by
      unfold getServiceMap
      rw [hbuild]
      rfl
    refine ⟨_, hmap, ?_,
      buildSvcMap_kdeploy env.services m0 hbuild k svc0 hentry⟩
    rw [foldl_depStep_apply]
    rw [foldl_depApply_id env.pods _ ?_ (m0 k), hentry]
    intro d hd
    have hdm := List.mem_filter.mp hd
    exact hnoann d hdm.1 (by simpa using hdm.2)
  · intro svcs hok
    induction svcs with
    | nil => simp [updateLoop]
    | cons svc rest ih =>
      cases hkd : svc.kdeploy with
      | none =>
        have hnone : updateLoop env nspace incoming (svc :: rest) = none := by
          unfold updateLoop updateOne
          rw [hkd]
        rw [hnone]
        constructor
        · intro _
          exact ⟨svc, List.mem_cons_self svc rest, hkd⟩
        · intro _
          rfl
      | some kdep =>
        obtain ⟨ops1, hone⟩ :
            ∃ ops1, updateOne env nspace incoming svc = some (ops1, .ok ()) := by
          unfold updateOne
          rw [hkd]
          simp only [hok, Except.mapError]
          exact ⟨_, rfl⟩
        have hstep : updateLoop env nspace incoming (svc :: rest) =
            match updateLoop env nspace incoming rest with
            | none => none
            | some (ops', res) => some (ops1 ++ ops', res) := by
          simp only [updateLoop, hone]
        rw [hstep]
        cases hr : updateLoop env nspace incoming rest with
        | none =>
          constructor
          · intro _
            obtain ⟨svc', hmem, hkd'⟩ := ih.mp hr
            exact ⟨svc', List.Mem.tail _ hmem, hkd'⟩
          · intro _
            rfl
        | some pr =>
          obtain ⟨ops', res⟩ := pr
          constructor
          · intro hcontra
            exact absurd hcontra (by simp)
          · rintro ⟨svc', hmem, hkd'⟩
            rcases List.mem_cons.mp hmem with heq | hmem'
            · subst heq
              rw [hkd'] at hkd
              cases hkd
            · have hh := ih.mpr ⟨svc', hmem', hkd'⟩
              rw [hh] at hr
              cases hr

/-- Concrete instance of C9: with one native Service keyed `a1` and one
matching but non-annotated deployment, the correlated LogicalService has
a nil deployment back-reference and running the Update loop over it
panics. -/
theorem update_nil_kdeploy_panics_witness :
    ∃ m svc, getServiceMap envC9.services envC9.deployments envC9.pods = some m ∧
      m "a1" = some svc ∧ svc.kdeploy = none ∧
      updateLoop envC9 "default" sW [svc] = none := by
  obtain ⟨⟨m, hm, hk, hkd⟩, h2⟩ :=
    update_nil_kdeploy_panics envC9 "default" sW _ _ "a1" rfl rfl (by decide)
  refine ⟨m, _, hm, hk, hkd, ?_⟩
  exact (h2 [_] (fun d => rfl)).mpr ⟨_, List.mem_singleton.mpr rfl, hkd⟩

theorem svcInsert_comm (m : SvcMap) (k1 k2 : String)
    (v1 v2 : LogicalService) (h : k1 ≠ k2) :
    svcInsert (svcInsert m k1 v1) k2 v2 =
      svcInsert (svcInsert m k2 v2) k1 v1 := by
  funext k
  unfold svcInsert
  by_cases h1 : k = k1 <;> by_cases h2 : k = k2
  · exact absurd (h1.symm.trans h2) h
  · simp [h1, h2, h, Ne.symm h]
  · simp [h1, h2, h, Ne.symm h]
  · simp [h1, h2]

theorem svcStep_none_eq (x : KService) : svcStep none x = none := by
  unfold svcStep
  cases mkLogical x <;> rfl

theorem svcStep_comm (x y : KService)
    (hkey : kserviceKey x ≠ kserviceKey y) (z : Option SvcMap) :
    svcStep (svcStep z x) y = svcStep (svcStep z y) x := by
  cases z with
  | none => simp [svcStep_none_eq]
  | some m =>
    cases hx : mkLogical x with
    | none =>
      have e1 : svcStep (some m) x = none := by unfold svcStep; rw [hx]
      cases hy : mkLogical y with
      | none =>
        have e2 : svcStep (some m) y = none := by unfold svcStep; rw [hy]
        rw [e1, e2, svcStep_none_eq, svcStep_none_eq]
      | some vy =>
        have e2 : svcStep (some m) y =
            some (svcInsert m (kserviceKey y) vy) := by
          unfold svcStep; rw [hy]
        have e3 : svcStep (some (svcInsert m (kserviceKey y) vy)) x = none := by
          unfold svcStep; rw [hx]
        rw [e1, e2, e3, svcStep_none_eq]
    | some vx =>
      have e1 : svcStep (some m) x =
          some (svcInsert m (kserviceKey x) vx) := by
        unfold svcStep; rw [hx]
      cases hy : mkLogical y with
      | none =>
        have e2 : svcStep (some m) y = none := by unfold svcStep; rw [hy]
        have e3 : svcStep (some (svcInsert m (kserviceKey x) vx)) y = none := by
          unfold svcStep; rw [hy]
        rw [e1, e2, e3, svcStep_none_eq]
      | some vy =>
        have e2 : svcStep (some m) y =
            some (svcInsert m (kserviceKey y) vy) := by
          unfold svcStep; rw [hy]
        have e3 : svcStep (some (svcInsert m (kserviceKey x) vx)) y =
            some (svcInsert (svcInsert m (kserviceKey x) vx) (kserviceKey y) vy) := by
          unfold svcStep; rw [hy]
        have e4 : svcStep (some (svcInsert m (kserviceKey y) vy)) x =
            some (svcInsert (svcInsert m (kserviceKey y) vy) (kserviceKey x) vx) := by
          unfold svcStep; rw [hx]
        rw [e1, e3, e2, e4, svcInsert_comm m _ _ vx vy hkey]

theorem buildSvcMap_perm (services services' : List KService)
    (hs : (services.map kserviceKey).Nodup) (ps : List.Perm services services') :
    buildSvcMap services = buildSvcMap services' := by
  unfold buildSvcMap
  refine ps.foldl_eq' ?_ _
  intro x hx y hy z
  by_cases hxy : x = y
  · subst hxy; rfl
  · exact svcStep_comm x y
      (fun he => hxy (List.inj_on_of_nodup_map hs hx hy he)) z

theorem podStep_comm (n v : String) (pods : List KPod)
    (hp : (pods.map (fun p => (mapGet p.metadata.labels "name",
        mapGet p.metadata.labels "version"))).Nodup) :
    ∀ x ∈ pods, ∀ y ∈ pods, ∀ svc : LogicalService,
      podStep n v (podStep n v svc x) y =
        podStep n v (podStep n v svc y) x := by
  intro x hx y hy svc
  by_cases hxy : x = y
  · subst hxy; rfl
  have hpair : (mapGet x.metadata.labels "name",
      mapGet x.metadata.labels "version") ≠
      (mapGet y.metadata.labels "name", mapGet y.metadata.labels "version") :=
    fun he => hxy (List.inj_on_of_nodup_map hp hx hy he)
  cases hmx : podMatches n v x with
  | false =>
    rw [podStep_of_not_matching n v svc x hmx,
      podStep_of_not_matching n v (podStep n v svc y) x hmx]
  | true =>
    cases hmy : podMatches n v y with
    | false =>
      rw [podStep_of_not_matching n v svc y hmy,
        podStep_of_not_matching n v (podStep n v svc x) y hmy]
    | true =>
      exfalso
      unfold podMatches at hmx hmy
      simp only [Bool.and_eq_true, beq_iff_eq, bne_iff_ne, ne_eq] at hmx hmy
      exact hpair (by rw [hmx.1, hmx.2.1, hmy.1, hmy.2.1])

theorem depApply_pods_congr (pods pods' : List KPod) (pp : List.Perm pods pods')
    (hp : (pods.map (fun p => (mapGet p.metadata.labels "name",
        mapGet p.metadata.labels "version"))).Nodup)
    (d : KDeployment) (ov : Option LogicalService) :
    depApply pods d ov = depApply pods' d ov := by
  cases ov with
  | none => rfl
  | some svc =>
    unfold depApply
    cases hann : hasNameAnn d with
    | false => simp [hann]
    | true =>
      simp only [hann, Bool.not_true, Bool.false_eq_true, if_false]
      rw [pp.foldl_eq' (podStep_comm _ _ pods hp) _]

theorem depStep_pods_congr (pods pods' : List KPod) (pp : List.Perm pods pods')
    (hp : (pods.map (fun p => (mapGet p.metadata.labels "name",
        mapGet p.metadata.labels "version"))).Nodup) :
    depStep pods = depStep pods' := by
  funext m d k
  unfold depStep
  by_cases hk : k = kdepKey d
  · rw [if_pos hk, if_pos hk, depApply_pods_congr pods pods' pp hp d (m k)]
  · rw [if_neg hk, if_neg hk]

theorem depStep_comm (pods : List KPod) (x y : KDeployment)
    (hkey : kdepKey x ≠ kdepKey y) (m : SvcMap) :
    depStep pods (depStep pods m x) y = depStep pods (depStep pods m y) x := by
  funext k
  unfold depStep
  by_cases h1 : k = kdepKey x <;> by_cases h2 : k = kdepKey y
  · exact absurd (h1.symm.trans h2) hkey
  · simp [h1, h2, hkey, Ne.symm hkey]
  · simp [h1, h2, hkey, Ne.symm hkey]
  · simp [h1, h2]

/-- Counterexample to C4 as stated: with one Service, one annotated
Deployment and two pods carrying identical name/version labels (phases
`running` and `failed`), swapping the pod list changes the surviving
status, so the resulting set of LogicalServices (compared by
name+version+status) differs. -/
theorem getService_order_independent_cex :
    (getServiceSet [ksW] [kdW] [kpRun, kpFail]).map (Multiset.map svcProj) ≠
      (getServiceSet [ksW] [kdW] [kpFail, kpRun]).map (Multiset.map svcProj) := by
  decide

/-- C4 (amended): the correlation is order-independent provided the join
keys are duplicate-free — no two listed Services share a name++version
key, no two Deployments share a key, and no two Pods share a
(name, version) label pair: permuting any of the three input lists then
yields the same multiset of LogicalServices compared by
(name, version, status).  (With duplicated keys the last element in list
order wins, so permutations can change the result.) -/
theorem getService_order_independent
    (services services' : List KService) (deps deps' : List KDeployment)
    (pods pods' : List KPod)
    (hs : (services.map kserviceKey).Nodup)
    (hd : (deps.map kdepKey).Nodup)
    (hp : (pods.map (fun p => (mapGet p.metadata.labels "name",
        mapGet p.metadata.labels "version"))).Nodup)
    (ps : List.Perm services services') (pd : List.Perm deps deps') (pp : List.Perm pods pods') :
    (getServiceSet services deps pods).map (Multiset.map svcProj) =
      (getServiceSet services' deps' pods').map (Multiset.map svcProj) := by
  have hbuild : buildSvcMap services = buildSvcMap services' :=
    buildSvcMap_perm services services' hs ps
  unfold getServiceSet getServiceList getServiceMap
  rw [← hbuild]
  cases hb : buildSvcMap services with
  | none => rfl
  | some m =>
    simp only [Option.map_some']
    congr 1
    have hdep : deps.foldl (depStep pods) m = deps'.foldl (depStep pods') m := by
      rw [← depStep_pods_congr pods pods' pp hp]
      refine pd.foldl_eq' ?_ m
      intro x hx y hy z
      by_cases hxy : x = y
      · subst hxy; rfl
      · exact depStep_comm pods x y
          (fun he => hxy (List.inj_on_of_nodup_map hd hx hy he)) z
    rw [← hdep]
    have hkeys : List.Perm (svcKeys services) (svcKeys services') :=
      (ps.map kserviceKey).dedup
    have hlp : List.Perm
        ((svcKeys services).filterMap (deps.foldl (depStep pods) m))
        ((svcKeys services').filterMap (deps.foldl (depStep pods) m)) :=
      hkeys.filterMap _
    have hcoe :
        ((List.filterMap (List.foldl (depStep pods) m deps) (svcKeys services) :
            List LogicalService) : Multiset LogicalService) =
          ((List.filterMap (List.foldl (depStep pods) m deps)
            (svcKeys services') : List LogicalService) : Multiset LogicalService) :=
      Multiset.coe_eq_coe.mpr hlp
    simp [hcoe]

/-- Concrete instance of C4 (amended): with duplicate-free keys, swapping
two Services leaves the correlated multiset unchanged. -/
theorem getService_order_independent_witness :
    (getServiceSet [ksW, ksB] [kdW] [kpRun]).map (Multiset.map svcProj) =
      (getServiceSet [ksB, ksW] [kdW] [kpRun]).map (Multiset.map svcProj) :=
  getService_order_independent [ksW, ksB] [ksB, ksW] [kdW] [kdW] [kpRun] [kpRun]
    (by decide) (by decide) (by decide)
    (List.Perm.swap ksB ksW []) (List.Perm.refl _) (List.Perm.refl _)

/-- Concrete instances of C3: `ImagePullBackOff` maps to `Error`
(case-insensitively), `Available` to `Running`, `bogus` to `Unknown`. -/
theorem transformStatus_total_case_insensitive_witness :
    transformStatus "ImagePullBackOff" = transformStatus "imagepullbackoff" ∧
    transformStatus "ImagePullBackOff" = ServiceStatus.Error ∧
    transformStatus "Available" = ServiceStatus.Running ∧
    transformStatus "bogus" = ServiceStatus.Unknown := by
  refine ⟨(transformStatus_total_case_insensitive "ImagePullBackOff"
      "imagepullbackoff").2.2.2.2.2 (by decide),
    (transformStatus_total_case_insensitive "ImagePullBackOff"
      "x").2.2.2.1 (by decide),
    (transformStatus_total_case_insensitive "Available" "x").2.1 (by decide),
    (transformStatus_total_case_insensitive "bogus" "x").2.2.2.2.1 (by decide)⟩

end MicroK8s
